import Mathlib

/-!
# Verification of the kcloanapp Financial Normalization & Risk Analysis Engine

Shallow embedding, in Lean 4, of the algorithmic core of the repository:
column mapping and statement classification (`modules/data_processing.py`),
amortization and DSCR (`modules/projections.py`), ratio formulas
(`modules/financial_analysis.py`), and the risk models
(`modules/risk_models.py`).  Machine floats are modelled by exact rationals
(`ℚ`); Python exceptions are modelled by `Option`; IEEE special values
(`inf`, `-inf`, `nan`), where the code actually produces them, are modelled
by an explicit extended-value type.
-/

namespace KcLoanApp

/-! ## String utilities

The Python substring test `sub in s`, re-implemented over `List Char` so
that every use is executable and decidable by `decide`/`rfl`. -/

/-- `leadsWith pre l` is true when `pre` is an initial segment of `l`. -/
def leadsWith : List Char → List Char → Bool
  | [], _ => true
  | _ :: _, [] => false
  | a :: as, b :: bs => a == b && leadsWith as bs

/-- `hasSubList sub l` is true when `sub` occurs contiguously inside `l`:
the Python test `sub in l` on strings, over explicit character lists. -/
def hasSubList (sub : List Char) : List Char → Bool
  | [] => sub.isEmpty
  | b :: bs => leadsWith sub (b :: bs) || hasSubList sub bs

/-- Drop leading whitespace characters. -/
def dropSpaces : List Char → List Char
  | [] => []
  | c :: t => if c.isWhitespace then dropSpaces t else c :: t

/-- The Python `str.strip` operation over a character list. -/
def trimChars (l : List Char) : List Char :=
  ((dropSpaces l).reverse |> dropSpaces).reverse

/-- The Python expression `str(col).lower().strip()` as a character list.
(`Char.toLower` agrees with the Python `lower` on the ASCII labels used.) -/
def lowerTrim (s : String) : List Char :=
  trimChars (s.data.map Char.toLower)

/-! ## ColumnNormalizer: `DataProcessor._map_column_names`

`data_processing.py` lines 14-30 fix the synonym table, and lines 84-104
rename columns.  The Python loop iterates over every canonical key in
insertion order and, for each column whose lowercased/stripped label matches
a synonym bidirectionally, assigns `column_mapping[col_name] = standard_name`
— a later key silently overwrites an earlier assignment, so the LAST
matching key wins. -/

/-- The `self.column_mappings` table from `DataProcessor.__init__`,
in Python dict insertion order. -/
def column_mappings : List (String × List String) :=
  [("revenue", ["revenue", "sales", "turnover", "gross revenue", "total revenue", "income"]),
   ("net_income", ["net income", "net profit", "profit after tax", "pat", "net profit after tax"]),
   ("total_assets", ["total assets", "assets", "non-current assets", "current assets", "fixed assets"]),
   ("total_liabilities", ["total liabilities", "liabilities", "non-current liabilities", "current liabilities"]),
   ("current_assets", ["current assets", "inventories", "receivables", "cash and cash equivalents"]),
   ("current_liabilities", ["current liabilities", "payables", "short term debt"]),
   ("equity", ["equity", "shareholders equity", "share capital", "retained earnings"]),
   ("gross_profit", ["gross profit", "gross margin"]),
   ("operating_expenses", ["operating expenses", "administrative expenses", "selling expenses"]),
   ("ebit", ["ebit", "operating profit", "profit before interest and tax"]),
   ("cogs", ["cost of goods sold", "cogs", "cost of sales"]),
   ("cash_flow_operating", ["operating cash flow", "cash from operations", "net cash from operating activities"]),
   ("cash_flow_investing", ["investing cash flow", "cash from investing activities"]),
   ("cash_flow_financing", ["financing cash flow", "cash from financing activities"])]

/-- The bidirectional substring test from `_map_column_names`:
`possible_name in col_lower or col_lower in possible_name`. -/
def synMatches (colLower : List Char) (syns : List String) : Bool :=
  syns.any (fun syn => hasSubList syn.data colLower || hasSubList colLower syn.data)

/-- `DataProcessor._map_column_names` restricted to a single column label:
the canonical name the column is renamed to (`none` when it is passed
through unchanged).  The fold reproduces the Python dict assignment
`column_mapping[col_name] = standard_name` executed once per matching
canonical key, in table order: a later matching key overwrites an earlier
one. -/
def mapColumnName (col : String) : Option String :=
  column_mappings.foldl
    (fun acc p => if synMatches (lowerTrim col) p.2 then some p.1 else acc) none

/-- The canonical key given by the amended spec sentence: the LAST key of
the table whose synonym list matches the column bidirectionally. -/
def lastMatchingKey (col : String) : Option String :=
  ((column_mappings.filter (fun p => synMatches (lowerTrim col) p.2)).map Prod.fst).getLast?

/-! ## ProjectionEngine: `FinancialProjections.calculate_loan_repayment_schedule`

`projections.py` lines 136-158.  Machine floats become exact rationals.
The Python code computes `monthly_payment` by dividing by
`(1 + monthly_rate) ** repayment_period - 1`; when that denominator is `0`
(exactly the case `interest_rate = 0`) CPython raises `ZeroDivisionError`,
which the function does not catch — modelled as `none`. -/

/-- One row of the repayment schedule
(month, payment, principal, interest, remaining_balance). -/
structure ScheduleRow where
  month : ℕ
  payment : ℚ
  principal : ℚ
  interest : ℚ
  remaining_balance : ℚ
  deriving DecidableEq, Repr

/-- The loop body of the schedule: starting from running balance `b` at
month `m`, produce `k` further rows.  `interest = b * rate`,
`principal = pay - interest`, the running balance decreases by the
principal component, and the STORED balance is clamped at `max 0`. -/
def buildSchedule (pay rate : ℚ) : ℚ → ℕ → ℕ → List ScheduleRow
  | _, _, 0 => []
  | b, m, k + 1 =>
    let interest := b * rate
    let principal := pay - interest
    let b' := b - principal
    { month := m, payment := pay, principal := principal, interest := interest,
      remaining_balance := max 0 b' } :: buildSchedule pay rate b' (m + 1) k

/-- `FinancialProjections.calculate_loan_repayment_schedule`.
`none` models the uncaught `ZeroDivisionError` when
`(1 + monthly_rate) ** repayment_period - 1 == 0`. -/
def calculate_loan_repayment_schedule (loan_amount interest_rate : ℚ)
    (repayment_period : ℕ) : Option (List ScheduleRow) :=
  let monthly_rate := interest_rate / 12 / 100
  if (1 + monthly_rate) ^ repayment_period - 1 = 0 then none
  else
    let monthly_payment := loan_amount * monthly_rate * (1 + monthly_rate) ^ repayment_period /
      ((1 + monthly_rate) ^ repayment_period - 1)
    some (buildSchedule monthly_payment monthly_rate loan_amount 1 repayment_period)

/-- One step of the running balance: `b - (pay - b * rate) = b*(1+rate) - pay`. -/
def nextBal (rate pay b : ℚ) : ℚ := b * (1 + rate) - pay

/-- The running balance after `j` months, starting from `b`. -/
def balAfter (rate pay b : ℚ) : ℕ → ℚ
  | 0 => b
  | j + 1 => nextBal rate pay (balAfter rate pay b j)

/-- Closed form of the running balance after `j` of `n` months. -/
def balClosed (P rate : ℚ) (n j : ℕ) : ℚ :=
  P * ((1 + rate) ^ n - (1 + rate) ^ j) / ((1 + rate) ^ n - 1)

/-! ## ProjectionEngine: DSCR (`projections.py` lines 170-216)

The float infinity (the "no debt service" marker) is modelled by `⊤ : WithTop ℚ`;
the Python comparison `inf >= 1.25` is `True`, as is `(1.25 : ℚ) ≤ ⊤`. -/

/-- The fields of an income-projection row that
`calculate_debt_service_coverage_ratio` reads. -/
structure IncomeRow where
  year : ℕ
  ebitda : ℚ
  interest_expense : ℚ
  deriving DecidableEq, Repr

/-- One row of the DSCR table. -/
structure DscrRow where
  year : ℕ
  ebitda : ℚ
  total_debt_service : ℚ
  dscr : WithTop ℚ
  status : String
  deriving DecidableEq, Repr

/-- `FinancialProjections._get_annual_loan_payment`: sum of the `payment`
field over schedule rows with `(year-1)*12+1 ≤ month ≤ year*12` (an empty
selection, or an empty schedule, sums to `0`, as in the Python code). -/
def get_annual_loan_payment (schedule : List ScheduleRow) (year : ℕ) : ℚ :=
  ((schedule.filter
      (fun row => (year - 1) * 12 + 1 ≤ row.month && row.month ≤ year * 12)).map
    (fun row => row.payment)).sum

/-- `total_debt_service = interest_expense + annual_loan_payment` for one
income row. -/
def dscrTds (repayment_schedule : List ScheduleRow) (r : IncomeRow) : ℚ :=
  r.interest_expense + get_annual_loan_payment repayment_schedule r.year

/-- `dscr = ebitda / total_debt_service if total_debt_service > 0 else
float(inf)` for one income row. -/
def dscrVal (repayment_schedule : List ScheduleRow) (r : IncomeRow) : WithTop ℚ :=
  if 0 < dscrTds repayment_schedule r
  then ((r.ebitda / dscrTds repayment_schedule r : ℚ) : WithTop ℚ)
  else ⊤

/-- The loop body of `calculate_debt_service_coverage_ratio`: the DSCR row
appended for one income-projection row. -/
def dscrRowOf (repayment_schedule : List ScheduleRow) (r : IncomeRow) : DscrRow :=
  { year := r.year, ebitda := r.ebitda,
    total_debt_service := dscrTds repayment_schedule r,
    dscr := dscrVal repayment_schedule r,
    status := if ((1.25 : ℚ) : WithTop ℚ) ≤ dscrVal repayment_schedule r
      then "Adequate" else "Inadequate" }

/-- `FinancialProjections.calculate_debt_service_coverage_ratio` (renamed
here to fit the file naming conventions): one DSCR row per
income-projection row. -/
def calculate_debt_service_coverage (income_projections : List IncomeRow)
    (repayment_schedule : List ScheduleRow) : List DscrRow :=
  income_projections.map (dscrRowOf repayment_schedule)

/-! ## RiskModels: Altman Z (`risk_models.py` lines 11-34) -/

/-- `RiskModels.altman_z_score`. -/
def altman_z_score (working_capital retained_earnings ebit market_value_equity
    total_assets total_liabilities : ℚ) : ℚ :=
  if total_assets = 0 then 0
  else
    let X1 := working_capital / total_assets
    let X2 := retained_earnings / total_assets
    let X3 := ebit / total_assets
    let X4 := if 0 < total_liabilities then market_value_equity / total_liabilities else 0
    let X5 := total_assets
    1.2 * X1 + 1.4 * X2 + 3.3 * X3 + 0.6 * X4 + 1.0 * X5

/-- `RiskModels.interpret_altman_z_score` (zone label and description). -/
def interpret_altman_z_score (z_score : ℚ) : String × String :=
  if 2.99 < z_score then ("Safe Zone", "Low bankruptcy risk")
  else if 1.81 < z_score then ("Grey Zone", "Moderate bankruptcy risk")
  else ("Distress Zone", "High bankruptcy risk")

/-! ## StatementClassifier: `DataProcessor.detect_financial_statement_type`

`data_processing.py` lines 278-321.  Works on the lowercased column labels;
scores are keyword-presence counts; with a unique maximum that category is
returned directly, otherwise the tie-break cascade runs. -/

def income_indicators : List String :=
  ["revenue", "sales", "cogs", "gross profit", "operating income", "net income", "ebit", "ebitda"]

def balance_indicators : List String :=
  ["assets", "liabilities", "equity", "current assets", "fixed assets", "inventory"]

def cashflow_indicators : List String :=
  ["operating cash flow", "investing cash flow", "financing cash flow", "cash flow"]

/-- `sum(1 for indicator in indicators if any(indicator in col for col in column_names))`. -/
def indicatorScore (indicators : List String) (column_names : List (List Char)) : ℕ :=
  (indicators.filter (fun ind => column_names.any (fun col => hasSubList ind.data col))).length

/-- `DataProcessor.detect_financial_statement_type` on the table's column
labels.  `best` is the Python list `best_types`, built in the dict insertion order
income, balance, cash-flow; a singleton is returned directly, any larger tie
goes to the tie-break cascade.  (The surrounding `try/except` is dead for
pure label lists and is not modelled.) -/
def detect_financial_statement_type (columns : List String) : String :=
  let column_names := columns.map (fun c => c.data.map Char.toLower)
  let income_score := indicatorScore income_indicators column_names
  let balance_score := indicatorScore balance_indicators column_names
  let cashflow_score := indicatorScore cashflow_indicators column_names
  let max_score := max income_score (max balance_score cashflow_score)
  if 0 < max_score then
    let best := (if income_score = max_score then ["income_statement"] else []) ++
      (if balance_score = max_score then ["balance_sheet"] else []) ++
      (if cashflow_score = max_score then ["cash_flow"] else [])
    match best with
    | [t] => t
    | _ =>
      if column_names.any (fun col => hasSubList "cash flow".data col) then "cash_flow"
      else if column_names.any (fun col => hasSubList "assets".data col) &&
          column_names.any (fun col => hasSubList "liabilities".data col) then "balance_sheet"
      else "income_statement"
  else "unknown"

/-- The column labels of the end-to-end scenario in the spec (§8). -/
def demoColumns : List String :=
  ["Total Revenue", "Net Profit After Tax", "Total Assets", "Total Liabilities"]

/-! ## RatioAnalyzer: `financial_analysis.py` lines 9-42 -/

/-- `FinancialAnalyzer.calculate_liquidity_ratios`:
`(current_ratio, quick_ratio)`. -/
def calculate_liquidity_ratios (current_assets current_liabilities : ℚ) : ℚ × ℚ :=
  if current_liabilities = 0 then (0, 0)
  else (current_assets / current_liabilities, current_assets / current_liabilities)

/-- `FinancialAnalyzer.calculate_leverage_ratios`:
`(debt_to_equity, debt_to_assets)`. -/
def calculate_leverage_ratios (total_liabilities total_assets equity : ℚ) : ℚ × ℚ :=
  (if 0 < equity then total_liabilities / equity else 0,
   if 0 < total_assets then total_liabilities / total_assets else 0)

/-! ## RiskModels: `merton_structural_model` (`risk_models.py` lines 36-50)

The Python body runs under numpy semantics: `np.log` of a non-positive
argument does NOT raise — it returns `nan` (negative argument) or `-inf`
(zero argument) with a `RuntimeWarning`, and those special values propagate
through the arithmetic and through `stats.norm.cdf`.  The only step that can
raise on the modelled inputs is the plain-float division
`company_value / debt_face_value` with `debt_face_value = 0`
(`ZeroDivisionError`), which the `except` clause converts to the fallback
`(0.5, 0)`.

`FloatV` models an IEEE double as an exact rational plus the special values.
Signed zeros are not modelled: a zero denominator is treated as `+0.0`,
which agrees with the code paths exercised below (denominators there are
products of a positive volatility and a non-negative square root).  The
transcendental functions are parameters: `logFin q` stands for `ln q` on
`q > 0`, `sqrtFin t` for `√t` on `t ≥ 0`, `cdfFin x` for the standard
normal CDF at finite `x`; the claim under verification is independent of
their finite values. -/

/-- An IEEE-style extended value: finite rational, `±inf`, or `nan`. -/
inductive FloatV where
  | fin (q : ℚ)
  | pinf
  | ninf
  | nan
  deriving DecidableEq, Repr

namespace FloatV

/-- IEEE addition. -/
def add : FloatV → FloatV → FloatV
  | nan, _ => nan
  | _, nan => nan
  | fin a, fin b => fin (a + b)
  | pinf, ninf => nan
  | ninf, pinf => nan
  | pinf, _ => pinf
  | _, pinf => pinf
  | ninf, _ => ninf
  | _, ninf => ninf

/-- IEEE negation. -/
def neg : FloatV → FloatV
  | fin a => fin (-a)
  | pinf => ninf
  | ninf => pinf
  | nan => nan

/-- IEEE subtraction. -/
def sub (a b : FloatV) : FloatV := add a (neg b)

/-- IEEE multiplication. -/
def mul : FloatV → FloatV → FloatV
  | nan, _ => nan
  | _, nan => nan
  | fin a, fin b => fin (a * b)
  | pinf, fin b => if b = 0 then nan else if 0 < b then pinf else ninf
  | fin a, pinf => if a = 0 then nan else if 0 < a then pinf else ninf
  | ninf, fin b => if b = 0 then nan else if 0 < b then ninf else pinf
  | fin a, ninf => if a = 0 then nan else if 0 < a then ninf else pinf
  | pinf, pinf => pinf
  | pinf, ninf => ninf
  | ninf, pinf => ninf
  | ninf, ninf => pinf

/-- IEEE division under the positive-zero convention (numpy division by a
zero float warns and yields `±inf`, or `nan` for `0/0` — no exception). -/
def div : FloatV → FloatV → FloatV
  | nan, _ => nan
  | _, nan => nan
  | fin a, fin b =>
    if b = 0 then (if a = 0 then nan else if 0 < a then pinf else ninf)
    else fin (a / b)
  | fin _, pinf => fin 0
  | fin _, ninf => fin 0
  | pinf, fin b => if 0 ≤ b then pinf else ninf
  | ninf, fin b => if 0 ≤ b then ninf else pinf
  | pinf, pinf => nan
  | pinf, ninf => nan
  | ninf, pinf => nan
  | ninf, ninf => nan

end FloatV

/-- `scipy.stats.norm.cdf` over extended values: `cdf(+inf) = 1`,
`cdf(-inf) = 0`, `cdf(nan) = nan`, finite arguments via the abstract
finite CDF. -/
def normCdf (cdfFin : ℚ → ℚ) : FloatV → FloatV
  | .fin x => .fin (cdfFin x)
  | .pinf => .fin 1
  | .ninf => .fin 0
  | .nan => .nan

/-- `np.log` over extended values (numpy: warns, never raises). -/
def npLog (logFin : ℚ → ℚ) : FloatV → FloatV
  | .fin q => if 0 < q then .fin (logFin q) else if q = 0 then .ninf else .nan
  | .pinf => .pinf
  | .ninf => .nan
  | .nan => .nan

/-- `np.sqrt` over extended values (numpy: warns, never raises). -/
def npSqrt (sqrtFin : ℚ → ℚ) : FloatV → FloatV
  | .fin t => if 0 ≤ t then .fin (sqrtFin t) else .nan
  | .pinf => .pinf
  | .ninf => .nan
  | .nan => .nan

/-- `RiskModels.merton_structural_model`.  Returns the pair
`(probability_default, distance_to_default)`.  The `try/except` catches the
`ZeroDivisionError` of the plain-float quotient `company_value /
debt_face_value` when `debt_face_value = 0` and yields the fallback
`(0.5, 0)`; every other modelled path completes and returns whatever
extended values the arithmetic produces. -/
def merton_structural_model (logFin sqrtFin cdfFin : ℚ → ℚ)
    (company_value debt_face_value risk_free_rate volatility
      time_to_maturity : ℚ) : FloatV × FloatV :=
  if debt_face_value = 0 then (.fin (1/2), .fin 0)
  else
    let lnVD := npLog logFin (.fin (company_value / debt_face_value))
    let sqT := npSqrt sqrtFin (.fin time_to_maturity)
    let denom := FloatV.mul (.fin volatility) sqT
    let numer := FloatV.add lnVD
      (.fin ((risk_free_rate + 1/2 * volatility ^ 2) * time_to_maturity))
    let d1 := FloatV.div numer denom
    let d2 := FloatV.sub d1 (FloatV.mul (.fin volatility) sqT)
    (normCdf cdfFin (FloatV.neg d2), d2)

/-! ## RiskModels: `monte_carlo_cashflow_simulation` (`risk_models.py` 52-65)

The numpy global generator is modelled by an abstract state type `S` with a
seeding function (`np.random.seed(42)`) and a drawing function
(`np.random.normal(0, volatility, simulations)` returns the drawn vector
and the advanced state).  What matters for the claims is that `seedFn 42`
replaces whatever ambient state the generator had. -/

/-- Arithmetic mean, `np.mean` (the empty mean, `nan` in numpy, is modelled
as `0` via rational division by zero; it is irrelevant to the claims). -/
def listMean (l : List ℚ) : ℚ := l.sum / l.length

/-- The simulation loop: at each period draw `simulations` shocks, scale the
current base multiplicatively, record the vector, and continue with the mean
of the recorded vector as the next base. -/
def mcLoop {S : Type} (drawNormals : S → ℚ → ℕ → List ℚ × S) (volatility : ℚ)
    (simulations : ℕ) : S → ℚ → ℕ → List (List ℚ)
  | _, _, 0 => []
  | s, current_cashflow, k + 1 =>
    let drawn := drawNormals s volatility simulations
    let simulated := drawn.1.map (fun z => current_cashflow * (1 + z))
    simulated :: mcLoop drawNormals volatility simulations drawn.2 (listMean simulated) k

/-- `RiskModels.monte_carlo_cashflow_simulation`: the `ambient` argument is
the state of the numpy global generator when the function is entered; the
first statement `np.random.seed(42)` discards it. -/
def monte_carlo_cashflow_simulation {S : Type} (seedFn : ℕ → S)
    (drawNormals : S → ℚ → ℕ → List ℚ × S) (_ambient : S)
    (base_cashflow volatility : ℚ) (periods simulations : ℕ) : List (List ℚ) :=
  let seeded := seedFn 42
  mcLoop drawNormals volatility simulations seeded base_cashflow periods

/-! ## MetricExtractor: `DataProcessor.extract_financial_metrics`

`data_processing.py` lines 154-203.  The whole body runs inside
`try/except`; the one failure reachable for a well-formed numeric table is
`df.iloc[0]` on an EMPTY table (an `IndexError`), and the handler returns
the empty dict.  A cleaned table is a header list plus rows of rationals;
metric mappings are association lists in dict insertion order. -/

/-- A cleaned table: column labels plus data rows (cells already numeric,
as produced by `clean_financial_data`). -/
structure Table where
  headers : List String
  rows : List (List ℚ)
  deriving DecidableEq, Repr

/-- Index of a named column (first occurrence, as a pandas label lookup). -/
def colIndex (t : Table) (name : String) : Option ℕ :=
  t.headers.findIdx? (fun h => h = name)

/-- Cell of a row at a column index (aligned rows; missing degrades to 0). -/
def cellAt (row : List ℚ) (i : ℕ) : ℚ := row.getD i 0

/-- The row with the maximum value in column `i`, keeping the earliest row
on ties.  (Models `df.sort_values(by=date_col, ascending=False).iloc[0]`;
the pandas sort is unstable, so WHICH maximal row is taken on exact ties is
not specified — the claims proved below do not depend on it.) -/
def rowWithMaxAt (i : ℕ) : List (List ℚ) → Option (List ℚ)
  | [] => none
  | r :: rs =>
    match rowWithMaxAt i rs with
    | none => some r
    | some best => if cellAt r i < cellAt best i then some best else some r

/-- Row selection of `extract_financial_metrics`:
more than one row → prefer the first date/year column and take the maximal
date, else the last row; exactly one row → that row; no rows → the
`IndexError` of `df.iloc[0]`, i.e. `none`. -/
def latestRow (t : Table) : Option (List ℚ) :=
  if 1 < t.rows.length then
    match t.headers.findIdx? (fun c =>
        hasSubList "date".data (c.data.map Char.toLower) ||
        hasSubList "year".data (c.data.map Char.toLower)) with
    | some i => rowWithMaxAt i t.rows
    | none => t.rows.getLast?
  else t.rows.head?

/-- Dict read, `metrics.get(k)`. -/
def mget (m : List (String × ℚ)) (k : String) : Option ℚ :=
  (m.find? (fun p => p.1 = k)).map Prod.snd

/-- Dict assignment `metrics[k] = v`: overwrite in place, else append. -/
def mset (m : List (String × ℚ)) (k : String) (v : ℚ) : List (String × ℚ) :=
  if m.any (fun p => p.1 = k) then m.map (fun p => if p.1 = k then (k, v) else p)
  else m ++ [(k, v)]

/-- The eleven core metric keys scanned by `extract_financial_metrics`. -/
def metricKeys : List String :=
  ["revenue", "net_income", "total_assets", "total_liabilities",
   "current_assets", "current_liabilities", "equity", "gross_profit",
   "operating_expenses", "ebit", "cogs"]

/-- The body of `extract_financial_metrics` up to the `except` handler:
`none` is the propagating internal failure (row selection on an empty
table). -/
def extractCore (t : Table) (statement_type : String) : Option (List (String × ℚ)) :=
  (latestRow t).map (fun latest =>
    let base := metricKeys.foldl (fun m k =>
      match colIndex t k with
      | some i => let v := cellAt latest i; if v ≠ 0 then mset m k v else m
      | none => m) []
    if statement_type = "income_statement" then
      let m1 := match mget base "revenue", mget base "cogs" with
        | some r, some c => mset base "gross_profit" (r - c)
        | _, _ => base
      match mget m1 "gross_profit", mget m1 "operating_expenses" with
        | some g, some o => mset m1 "ebit" (g - o)
        | _, _ => m1
    else if statement_type = "balance_sheet" then
      match mget base "total_assets", mget base "total_liabilities" with
      | some a, some l =>
        let calculated_equity := a - l
        match mget base "equity" with
        | none => mset base "equity" calculated_equity
        | some e =>
          if 0.01 < |calculated_equity - e| then mset base "equity" calculated_equity
          else base
      | _, _ => base
    else base)

/-- `DataProcessor.extract_financial_metrics`: the `except` handler turns
any internal failure into the empty mapping. -/
def extract_financial_metrics (t : Table) (statement_type : String) :
    List (String × ℚ) :=
  match extractCore t statement_type with
  | some m => m
  | none => []

/-! ## RiskModels: `machine_learning_credit_scoring` (`risk_models.py` 67-88)

The input is the ratio dict; `financial_ratios.get(key, 0)` defaults a
missing key to 0.  (The `features` array built at the top of the Python
function is dead code — it is never read.) -/

/-- `financial_ratios.get(k, 0)`. -/
def rget (financial_ratios : List (String × ℚ)) (k : String) : ℚ :=
  ((financial_ratios.find? (fun p => p.1 = k)).map Prod.snd).getD 0

/-- `RiskModels.machine_learning_credit_scoring`: four independent 25-point
indicators summed, then `min(score, 100)`. -/
def machine_learning_credit_scoring (financial_ratios : List (String × ℚ)) : ℕ :=
  let s0 : ℕ := 0
  let s1 := if 1.5 < rget financial_ratios "current_ratio" then s0 + 25 else s0
  let s2 := if rget financial_ratios "debt_to_equity" < 2 then s1 + 25 else s1
  let s3 := if 0.05 < rget financial_ratios "return_on_assets" then s2 + 25 else s2
  let s4 := if 0.1 < rget financial_ratios "net_profit_margin" then s3 + 25 else s3
  min s4 100

/-! ## General lemmas -/

/-- `getLast?` of a cons, phrased through `Option.or`. -/
theorem getLast?_cons_or {α : Type} (a : α) (l : List α) :
    (a :: l).getLast? = Option.or l.getLast? (some a) := by
  induction l generalizing a with
  | nil => rfl
  | cons b bs ih =>
    rw [List.getLast?_cons_cons, ih b]
    cases bs.getLast? <;> rfl

/-- A fold that overwrites its accumulator at every element satisfying `f`
computes the LAST such element (or keeps the initial accumulator). -/
theorem foldl_overwrite {α β : Type} (f : α × β → Bool) (l : List (α × β))
    (acc : Option α) :
    l.foldl (fun a p => if f p then some p.1 else a) acc
      = Option.or ((l.filter f).map Prod.fst).getLast? acc := by
  induction l generalizing acc with
  | nil => rfl
  | cons p t ih =>
    rw [List.foldl_cons, ih, List.filter_cons]
    by_cases hp : f p
    · simp only [hp, if_pos, List.map_cons, getLast?_cons_or]
      cases ((t.filter f).map Prod.fst).getLast? <;> rfl
    · simp only [hp, Bool.false_eq_true, if_neg, if_false]

/-! ## C1: column renaming -/

/-- C1 counterexample: the claim says the FIRST canonical key whose synonym
list matches wins, making a column named "assets" map to `total_assets`.
On the code, the dict assignment in `_map_column_names` lets a LATER key
overwrite an earlier one, so "assets" (which matches both the
`total_assets` and the `current_assets` synonym lists) is renamed to
`current_assets`, not `total_assets`. -/
theorem mapColumnName_assets_counterexample :
    mapColumnName "assets" = some "current_assets" ∧
    mapColumnName "assets" ≠ some "total_assets" := by decide

/-- C1 (amended): column renaming follows the bidirectional substring rule,
a column matches at most one canonical key, and the LAST canonical key (in
the fixed key order) whose synonym list matches wins — equivalently,
`mapColumnName` agrees with `lastMatchingKey` on every label; in particular
"Net Profit After Tax" maps to `net_income` and "assets" alone maps to
`current_assets`. -/
theorem mapColumnName_last_key_wins :
    (∀ col : String, mapColumnName col = lastMatchingKey col) ∧
    mapColumnName "Net Profit After Tax" = some "net_income" ∧
    mapColumnName "assets" = some "current_assets" := by
  refine ⟨fun col => ?_, by decide, by decide⟩
  unfold mapColumnName lastMatchingKey
  rw [foldl_overwrite (fun p => synMatches (lowerTrim col) p.2)]
  cases ((column_mappings.filter
    (fun p => synMatches (lowerTrim col) p.2)).map Prod.fst).getLast? <;> rfl

/-! ## C5: statement classification of the demo table -/

/-- C5 counterexample: on the cleaned table with columns
["Total Revenue", "Net Profit After Tax", "Total Assets",
"Total Liabilities"], the income-statement score is 1, not the 2 the claim
asserts — the indicator "net income" is NOT a substring of
"net profit after tax", so only "revenue" matches. -/
theorem demo_income_score_counterexample :
    indicatorScore income_indicators
        (demoColumns.map (fun c => c.data.map Char.toLower)) = 1 ∧
    indicatorScore income_indicators
        (demoColumns.map (fun c => c.data.map Char.toLower)) ≠ 2 := by decide

/-- C5 (amended): on the demo columns the classifier scores
income_statement 1 (only "revenue" matches; "net income" is not a substring
of "net profit after tax"), balance_sheet 2 ("assets", "liabilities") and
cash_flow 0; balance_sheet holds the strict maximum, so the classification
resolves to balance_sheet directly, without reaching the tie-break
cascade. -/
theorem demo_classifies_balance_sheet :
    indicatorScore income_indicators
        (demoColumns.map (fun c => c.data.map Char.toLower)) = 1 ∧
    indicatorScore balance_indicators
        (demoColumns.map (fun c => c.data.map Char.toLower)) = 2 ∧
    indicatorScore cashflow_indicators
        (demoColumns.map (fun c => c.data.map Char.toLower)) = 0 ∧
    detect_financial_statement_type demoColumns = "balance_sheet" := by decide

/-! ## C10: rule-based credit score -/

/-- C10: for every input ratio mapping the credit score equals the plain
sum of the four independent 25-point indicators — so the trailing
`min(score, 100)` never alters the computed value — and the returned score
always lies in the set 0, 25, 50, 75, 100. -/
theorem credit_score_spec (financial_ratios : List (String × ℚ)) :
    (machine_learning_credit_scoring financial_ratios =
      (if 1.5 < rget financial_ratios "current_ratio" then 25 else 0) +
      (if rget financial_ratios "debt_to_equity" < 2 then 25 else 0) +
      (if 0.05 < rget financial_ratios "return_on_assets" then 25 else 0) +
      (if 0.1 < rget financial_ratios "net_profit_margin" then 25 else 0)) ∧
    (machine_learning_credit_scoring financial_ratios = 0 ∨
     machine_learning_credit_scoring financial_ratios = 25 ∨
     machine_learning_credit_scoring financial_ratios = 50 ∨
     machine_learning_credit_scoring financial_ratios = 75 ∨
     machine_learning_credit_scoring financial_ratios = 100) := by
  unfold machine_learning_credit_scoring
  constructor <;> split_ifs <;> simp

/-! ## C4: Altman Z -/

/-- C4: the Altman Z computation returns exactly 0 when total_assets = 0
(never a division error); otherwise it returns
`1.2 X1 + 1.4 X2 + 3.3 X3 + 0.6 X4 + 1.0 X5` with
`X4 = market_value_equity / total_liabilities` set to 0 when
total_liabilities is not positive and `X5 = total_assets`; and the zone
interpretation maps `z > 2.99` to the Safe Zone, `1.81 < z ≤ 2.99` to the
Grey Zone, and `z ≤ 1.81` to the Distress Zone. -/
theorem altman_z_spec (wc re eb mve ta tl : ℚ) :
    (ta = 0 → altman_z_score wc re eb mve ta tl = 0) ∧
    (ta ≠ 0 → altman_z_score wc re eb mve ta tl
      = 1.2 * (wc / ta) + 1.4 * (re / ta) + 3.3 * (eb / ta)
        + 0.6 * (if 0 < tl then mve / tl else 0) + 1.0 * ta) ∧
    (∀ z : ℚ, (2.99 < z → (interpret_altman_z_score z).1 = "Safe Zone") ∧
      (1.81 < z → z ≤ 2.99 → (interpret_altman_z_score z).1 = "Grey Zone") ∧
      (z ≤ 1.81 → (interpret_altman_z_score z).1 = "Distress Zone")) := by
  refine ⟨fun h => by simp [altman_z_score, h], fun h => by simp [altman_z_score, h],
    fun z => ⟨fun h1 => ?_, fun h1 h2 => ?_, fun h1 => ?_⟩⟩
  · rw [interpret_altman_z_score, if_pos h1]
  · rw [interpret_altman_z_score, if_neg (by linarith), if_pos h1]
  · rw [interpret_altman_z_score, if_neg (by linarith), if_neg (by linarith)]

/-- C4 witness: the theorem applied at concrete inputs. -/
theorem altman_z_spec_witness :
    (0 : ℚ) = 0 ∧ altman_z_score 1 2 3 4 0 5 = 0 ∧
    (interpret_altman_z_score 3).1 = "Safe Zone" :=
  ⟨rfl, (altman_z_spec 1 2 3 4 0 5).1 rfl,
    ((altman_z_spec 1 2 3 4 0 5).2.2 3).1 (by norm_num)⟩

/-! ## C6: guarded ratios -/

/-- C6 counterexample: the claim quantifies over ANY numeric metric values,
but negative inputs make both ratios negative: with current_assets = -1,
current_liabilities = 1 the current_ratio is -1 < 0, and with
total_liabilities = -1, equity = 1 the debt_to_equity is -1 < 0. -/
theorem ratio_negative_counterexample :
    (calculate_liquidity_ratios (-1) 1).1 < 0 ∧
    (calculate_leverage_ratios (-1) 1 1).1 < 0 := by
  norm_num [calculate_liquidity_ratios, calculate_leverage_ratios]

/-- C6 (amended): current_ratio is ≥ 0 whenever current_assets and
current_liabilities are ≥ 0, and debt_to_equity is ≥ 0 whenever
total_liabilities is ≥ 0; the ratio formulas are guarded against division
by zero by returning 0 for the ratio (current_ratio is 0 when
current_liabilities = 0, debt_to_equity is 0 when equity is not positive)
rather than failing. -/
theorem ratio_nonneg_spec (ca cl tl ta eq : ℚ) :
    (0 ≤ ca → 0 ≤ cl → 0 ≤ (calculate_liquidity_ratios ca cl).1) ∧
    (0 ≤ tl → 0 ≤ (calculate_leverage_ratios tl ta eq).1) ∧
    (calculate_liquidity_ratios ca 0).1 = 0 ∧
    (eq ≤ 0 → (calculate_leverage_ratios tl ta eq).1 = 0) := by
  refine ⟨fun hca hcl => ?_, fun htl => ?_, by simp [calculate_liquidity_ratios],
    fun heq => ?_⟩
  · rw [calculate_liquidity_ratios]
    split_ifs with h
    · norm_num
    · exact div_nonneg hca hcl
  · rw [calculate_leverage_ratios]
    show 0 ≤ if 0 < eq then tl / eq else 0
    split_ifs with h
    · exact div_nonneg htl h.le
    · exact le_refl (0 : ℚ)
  · rw [calculate_leverage_ratios]
    show (if 0 < eq then tl / eq else 0) = 0
    rw [if_neg (not_lt.mpr heq)]

/-- C6 witness: the theorem applied at concrete inputs. -/
theorem ratio_nonneg_spec_witness :
    ((0 : ℚ) ≤ 2 ∧ (0 : ℚ) ≤ 1 ∧ (0 : ℚ) ≤ 3 ∧ (0 : ℚ) ≤ 0) ∧
    0 ≤ (calculate_liquidity_ratios 2 1).1 ∧
    0 ≤ (calculate_leverage_ratios 3 1 2).1 ∧
    (calculate_leverage_ratios 3 1 0).1 = 0 :=
  ⟨⟨by norm_num, by norm_num, by norm_num, le_refl 0⟩,
   (ratio_nonneg_spec 2 1 3 1 2).1 (by norm_num) (by norm_num),
   (ratio_nonneg_spec 2 1 3 1 2).2.1 (by norm_num),
   (ratio_nonneg_spec 2 1 3 1 0).2.2.2 (le_refl 0)⟩

/-! ## C8: Monte Carlo determinism -/

/-- C8: two runs of the Monte Carlo cash-flow simulation with identical
parameters produce identical periods × simulations output, whatever state
the ambient random generator holds at entry — `np.random.seed(42)` replaces
it before any draw; and each period recurs by drawing shocks, scaling the
current base multiplicatively, and continuing with the MEAN of the recorded
vector as the next base. -/
theorem monte_carlo_deterministic {S : Type} (seedFn : ℕ → S)
    (drawNormals : S → ℚ → ℕ → List ℚ × S) (s1 s2 : S)
    (base volatility : ℚ) (periods simulations : ℕ) :
    (monte_carlo_cashflow_simulation seedFn drawNormals s1
        base volatility periods simulations
      = monte_carlo_cashflow_simulation seedFn drawNormals s2
        base volatility periods simulations) ∧
    (∀ (s : S) (b : ℚ) (k : ℕ),
      mcLoop drawNormals volatility simulations s b (k + 1)
        = (drawNormals s volatility simulations).1.map (fun z => b * (1 + z)) ::
          mcLoop drawNormals volatility simulations
            (drawNormals s volatility simulations).2
            (listMean ((drawNormals s volatility simulations).1.map
              (fun z => b * (1 + z)))) k) :=
  ⟨rfl, fun _ _ _ => rfl⟩

/-! ## C9: total metric extraction -/

/-- C9: metric extraction never propagates an exception at the public
interface: for every input table and statement type it either returns the
mapping computed by the extraction body, or — when the body fails
internally, in particular on an empty table where the row selection
`df.iloc[0]` would raise — returns the empty mapping. -/
theorem extract_metrics_total (t : Table) (stype : String) :
    (t.rows = [] → extract_financial_metrics t stype = []) ∧
    (extract_financial_metrics t stype = [] ∨
      extractCore t stype = some (extract_financial_metrics t stype)) := by
  constructor
  · intro h
    rw [extract_financial_metrics]
    have : extractCore t stype = none := by
      rw [extractCore, latestRow, h]
      rfl
    rw [this]
  · rw [extract_financial_metrics]
    cases h : extractCore t stype with
    | none => exact Or.inl rfl
    | some m => exact Or.inr rfl

/-- C9 witness: the theorem applied at a concrete empty table. -/
theorem extract_metrics_total_witness :
    (Table.mk ["revenue"] []).rows = [] ∧
    extract_financial_metrics (Table.mk ["revenue"] []) "income_statement" = [] :=
  ⟨rfl, (extract_metrics_total (Table.mk ["revenue"] []) "income_statement").1 rfl⟩

/-! ## C3: DSCR series -/

/-- C3: the DSCR series carries one row per projected year, and on every
row: total debt service is that year's interest_expense plus the year's
summed monthly amortization payments; `dscr = ebitda / total_debt_service`
when the total debt service is positive; when the total debt service is 0
the dscr is the unbounded "no debt service" marker (float infinity,
modelled as `⊤`); the status is "Adequate" if and only if `dscr ≥ 1.25`;
and the boundary value `dscr = 1.25` itself is classified Adequate. -/
theorem dscr_row_spec (ip : List IncomeRow) (sched : List ScheduleRow) :
    calculate_debt_service_coverage ip sched = ip.map (dscrRowOf sched) ∧
    ∀ r : IncomeRow,
      (dscrRowOf sched r).total_debt_service
        = r.interest_expense + get_annual_loan_payment sched r.year ∧
      (0 < (dscrRowOf sched r).total_debt_service →
        (dscrRowOf sched r).dscr
          = ((r.ebitda / (dscrRowOf sched r).total_debt_service : ℚ) : WithTop ℚ)) ∧
      ((dscrRowOf sched r).total_debt_service = 0 →
        (dscrRowOf sched r).dscr = (⊤ : WithTop ℚ)) ∧
      ((dscrRowOf sched r).status = "Adequate"
        ↔ ((1.25 : ℚ) : WithTop ℚ) ≤ (dscrRowOf sched r).dscr) ∧
      ((dscrRowOf sched r).dscr = ((1.25 : ℚ) : WithTop ℚ) →
        (dscrRowOf sched r).status = "Adequate") := by
  refine ⟨rfl, fun r => ?_⟩
  have hiff : (dscrRowOf sched r).status = "Adequate"
      ↔ ((1.25 : ℚ) : WithTop ℚ) ≤ (dscrRowOf sched r).dscr := by
    show (if ((1.25 : ℚ) : WithTop ℚ) ≤ dscrVal sched r then "Adequate" else "Inadequate")
        = "Adequate" ↔ ((1.25 : ℚ) : WithTop ℚ) ≤ dscrVal sched r
    constructor
    · intro hs
      by_cases hc : ((1.25 : ℚ) : WithTop ℚ) ≤ dscrVal sched r
      · exact hc
      · rw [if_neg hc] at hs
        exact absurd hs (by decide)
    · intro hc
      rw [if_pos hc]
  refine ⟨rfl, fun h => ?_, fun h => ?_, hiff, fun h => hiff.mpr (by rw [h])⟩
  · have hpos : 0 < dscrTds sched r := h
    show dscrVal sched r = ((r.ebitda / dscrTds sched r : ℚ) : WithTop ℚ)
    unfold dscrVal
    rw [if_pos hpos]
  · have hz : dscrTds sched r = 0 := h
    show dscrVal sched r = (⊤ : WithTop ℚ)
    unfold dscrVal
    rw [if_neg]
    rw [hz]
    exact lt_irrefl 0

/-- C3 witness: the theorem applied at one concrete income row (ebitda 10,
interest 4, empty schedule). -/
theorem dscr_row_spec_witness :
    0 < (dscrRowOf [] (⟨1, 10, 4⟩ : IncomeRow)).total_debt_service ∧
    (dscrRowOf [] (⟨1, 10, 4⟩ : IncomeRow)).dscr
      = (((⟨1, 10, 4⟩ : IncomeRow).ebitda
          / (dscrRowOf [] (⟨1, 10, 4⟩ : IncomeRow)).total_debt_service : ℚ) : WithTop ℚ) := by
  have hpos : 0 < (dscrRowOf [] (⟨1, 10, 4⟩ : IncomeRow)).total_debt_service := by
    show (0 : ℚ) < (4 : ℚ) + get_annual_loan_payment [] 1
    norm_num [get_annual_loan_payment]
  exact ⟨hpos, ((dscr_row_spec [⟨1, 10, 4⟩] []).2 ⟨1, 10, 4⟩).2.1 hpos⟩

/-! ## C7: structural model fallback -/

/-- C7 counterexample: the claim says ANY numerical failure — including a
non-positive company value `V` — returns the fallback `(0.5, 0)`.  On the
code, `V = 0` with `D = 1`, `r = 0`, `σ = 1`, `T = 1` raises nothing:
`np.log(0.0)` only warns and returns `-inf`, which propagates to the result
`(probability 1.0, distance -inf)` — not the fallback, and not a plain
number. -/
theorem merton_no_fallback_counterexample :
    merton_structural_model id id id 0 1 0 1 1 = (FloatV.fin 1, FloatV.ninf) ∧
    merton_structural_model id id id 0 1 0 1 1 ≠ (FloatV.fin (1/2), FloatV.fin 0) := by
  have h : merton_structural_model id id id 0 1 0 1 1 = (FloatV.fin 1, FloatV.ninf) := by
    norm_num [merton_structural_model, npLog, npSqrt, normCdf, FloatV.add, FloatV.mul,
      FloatV.div, FloatV.sub, FloatV.neg]
  refine ⟨h, ?_⟩
  rw [h]
  simp

/-- C7 (amended): the fallback pair `(0.5, 0)` is returned exactly on the
exception path — the plain-float division `V / D` with `D = 0` raises
`ZeroDivisionError`, which the handler converts to the fallback — while the
other non-positive-input "failures" raise nothing and instead propagate
IEEE special values: `V = 0` (with `D ≠ 0`, positive volatility and
horizon) yields `(probability 1, distance -inf)`, and a negative quotient
`V / D < 0` yields `(nan, nan)`.  Quantified over every model of the
transcendental functions, so the result does not depend on their finite
values. -/
theorem merton_fallback_spec (logFin sqrtFin cdfFin : ℚ → ℚ)
    (V D r σ T : ℚ) :
    (D = 0 → merton_structural_model logFin sqrtFin cdfFin V D r σ T
      = (FloatV.fin (1/2), FloatV.fin 0)) ∧
    (V = 0 → D ≠ 0 → 0 < σ → 0 ≤ T → 0 < sqrtFin T →
      merton_structural_model logFin sqrtFin cdfFin V D r σ T
        = (FloatV.fin 1, FloatV.ninf)) ∧
    (V / D < 0 → D ≠ 0 →
      merton_structural_model logFin sqrtFin cdfFin V D r σ T
        = (FloatV.nan, FloatV.nan)) := by
  refine ⟨fun h => ?_, fun hV hD hσ hT hs => ?_, fun hq hD => ?_⟩
  · rw [merton_structural_model, if_pos h]
  · rw [merton_structural_model, if_neg hD]
    subst hV
    simp [npLog, npSqrt, normCdf, FloatV.add, FloatV.mul, FloatV.div, FloatV.sub,
      FloatV.neg, hT, (mul_pos hσ hs).le]
  · rw [merton_structural_model, if_neg hD]
    have h1 : ¬ (0 : ℚ) < V / D := not_lt.mpr hq.le
    simp [npLog, npSqrt, normCdf, FloatV.add, FloatV.mul, FloatV.div, FloatV.sub,
      FloatV.neg, h1, hq.ne]

/-- C7 witness: the theorem applied on the exception path `D = 0`. -/
theorem merton_fallback_spec_witness :
    (0 : ℚ) = 0 ∧ merton_structural_model id id id 5 0 (1/100) (2/10) 1
      = (FloatV.fin (1/2), FloatV.fin 0) :=
  ⟨rfl, (merton_fallback_spec id id id 5 0 (1/100) (2/10) 1).1 rfl⟩

/-! ## C2: amortization schedule

Helper lemmas about `buildSchedule` and the closed form of the running
balance. -/

/-- The schedule loop emits exactly one row per remaining month. -/
theorem buildSchedule_length (pay rate : ℚ) :
    ∀ (k : ℕ) (b : ℚ) (m : ℕ), (buildSchedule pay rate b m k).length = k := by
  intro k
  induction k with
  | zero => intro b m; rfl
  | succ k ih => intro b m; simp [buildSchedule, ih]

/-- Shifting the starting balance by one step shifts the index. -/
theorem balAfter_shift (rate pay b : ℚ) :
    ∀ j, balAfter rate pay (nextBal rate pay b) j = balAfter rate pay b (j + 1) := by
  intro j
  induction j with
  | zero => rfl
  | succ j ih =>
    show nextBal rate pay (balAfter rate pay (nextBal rate pay b) j) = _
    rw [ih]
    rfl

/-- The principal components over the loop telescope to the drop of the
running balance. -/
theorem buildSchedule_sum_principal (pay rate : ℚ) :
    ∀ (k : ℕ) (b : ℚ) (m : ℕ),
      ((buildSchedule pay rate b m k).map ScheduleRow.principal).sum
        = b - balAfter rate pay b k := by
  intro k
  induction k with
  | zero => intro b m; simp [buildSchedule, balAfter]
  | succ k ih =>
    intro b m
    have hb : b - (pay - b * rate) = nextBal rate pay b := by rw [nextBal]; ring
    show (pay - b * rate) +
        ((buildSchedule pay rate (b - (pay - b * rate)) (m + 1) k).map
          ScheduleRow.principal).sum = b - balAfter rate pay b (k + 1)
    rw [ih, hb, balAfter_shift, ← balAfter_shift, nextBal]
    ring

/-- The stored balances of the loop are the clamped running balances. -/
theorem buildSchedule_balances (pay rate : ℚ) :
    ∀ (k : ℕ) (b : ℚ) (m : ℕ),
      (buildSchedule pay rate b m k).map ScheduleRow.remaining_balance
        = (List.range k).map (fun i => max 0 (balAfter rate pay b (i + 1))) := by
  intro k
  induction k with
  | zero => intro b m; simp [buildSchedule]
  | succ k ih =>
    intro b m
    have hb : b - (pay - b * rate) = nextBal rate pay b := by rw [nextBal]; ring
    rw [List.range_succ_eq_map]
    show max 0 (b - (pay - b * rate)) ::
        ((buildSchedule pay rate (b - (pay - b * rate)) (m + 1) k).map
          ScheduleRow.remaining_balance) = _
    rw [ih, List.map_cons, List.map_map, hb]
    congr 1
    exact congrArg (fun f => List.map f (List.range k)) (funext fun i => by
      simp only [Function.comp, Nat.succ_eq_add_one]
      rw [balAfter_shift])

/-- With the payment computed by the source formula, the running balance
matches the closed form. -/
theorem balAfter_eq_closed (P rate : ℚ) (n : ℕ)
    (hd : (1 + rate) ^ n - 1 ≠ 0) :
    ∀ j, balAfter rate (P * rate * (1 + rate) ^ n / ((1 + rate) ^ n - 1)) P j
      = balClosed P rate n j := by
  intro j
  induction j with
  | zero =>
    show P = balClosed P rate n 0
    rw [balClosed, pow_zero]
    field_simp
  | succ j ih =>
    show nextBal rate _ (balAfter rate _ P j) = balClosed P rate n (j + 1)
    rw [ih, nextBal, balClosed, balClosed]
    field_simp
    ring

/-- The closed-form balance is antitone in the month index. -/
theorem balClosed_anti (P rate : ℚ) (n : ℕ) (hP : 0 ≤ P) (hr : 0 < rate)
    (hn : 1 ≤ n) {i j : ℕ} (hij : i ≤ j) :
    balClosed P rate n j ≤ balClosed P rate n i := by
  have h1 : (1 : ℚ) < 1 + rate := by linarith
  have hA : (1 : ℚ) < (1 + rate) ^ n := one_lt_pow₀ h1 (by omega)
  rw [balClosed, balClosed]
  gcongr
  · linarith
  · linarith

/-- The closed-form balance vanishes at the final month. -/
theorem balClosed_self (P rate : ℚ) (n : ℕ) : balClosed P rate n n = 0 := by
  rw [balClosed, sub_self, mul_zero, zero_div]

/-- C2 counterexample: the claim admits annual_interest_rate = 0 as valid,
but there the payment formula divides by `(1 + 0)^term - 1 = 0` and CPython
raises an uncaught `ZeroDivisionError` instead of producing a schedule:
at principal 1000, rate 0, term 12 the function fails (modelled `none`). -/
theorem repayment_schedule_zero_rate_counterexample :
    calculate_loan_repayment_schedule 1000 0 12 = none := by
  norm_num [calculate_loan_repayment_schedule]

/-- C2 (amended): for every LoanTerms input with principal > 0,
annual_interest_rate > 0 (STRICTLY positive — the rate-0 case raises a
division error, see the counterexample) and term_months ≥ 1,
`calculate_loan_repayment_schedule` produces a schedule of exactly
term_months rows whose stored remaining_balance is monotonically
non-increasing, whose remaining_balance at the final month is exactly 0,
and whose principal components sum exactly to the principal (exact
rational arithmetic; the float code matches up to rounding). -/
theorem repayment_schedule_spec (P rate : ℚ) (n : ℕ)
    (hP : 0 < P) (hr : 0 < rate) (hn : 1 ≤ n) :
    ∃ rows : List ScheduleRow,
      calculate_loan_repayment_schedule P rate n = some rows ∧
      rows.length = n ∧
      List.Pairwise (fun a b => b ≤ a) (rows.map ScheduleRow.remaining_balance) ∧
      (rows.map ScheduleRow.remaining_balance).getLast? = some 0 ∧
      (rows.map ScheduleRow.principal).sum = P := by
  have hr0 : 0 < rate / 12 / 100 := by positivity
  set r : ℚ := rate / 12 / 100 with hr_def
  have h1r : (1 : ℚ) < 1 + r := by linarith
  have hA : (1 : ℚ) < (1 + r) ^ n := one_lt_pow₀ h1r (by omega)
  have hd : (1 + r) ^ n - 1 ≠ 0 := sub_ne_zero_of_ne (ne_of_gt hA)
  set pay : ℚ := P * r * (1 + r) ^ n / ((1 + r) ^ n - 1) with hpay
  have hclosed : ∀ j, balAfter r pay P j = balClosed P r n j := by
    intro j
    rw [hpay]
    exact balAfter_eq_closed P r n hd j
  have hbal : (buildSchedule pay r P 1 n).map ScheduleRow.remaining_balance
      = (List.range n).map (fun t => max 0 (balClosed P r n (t + 1))) := by
    rw [buildSchedule_balances pay r n P 1]
    congr 1
    funext t
    rw [hclosed]
  refine ⟨buildSchedule pay r P 1 n, ?_, buildSchedule_length pay r n P 1, ?_, ?_, ?_⟩
  · show (if (1 + r) ^ n - 1 = 0 then none
      else some (buildSchedule pay r P 1 n)) = some (buildSchedule pay r P 1 n)
    rw [if_neg hd]
  · rw [hbal]
    exact (List.pairwise_lt_range n).map _
      (fun a b hab => max_le_max le_rfl
        (balClosed_anti P r n hP.le hr0 hn (by omega)))
  · rw [hbal]
    obtain ⟨m, rfl⟩ : ∃ m, n = m + 1 := ⟨n - 1, by omega⟩
    rw [List.range_succ, List.map_append]
    simp only [List.map_cons, List.map_nil, List.getLast?_concat]
    rw [balClosed_self]
    simp
  · rw [buildSchedule_sum_principal pay r n P 1, hclosed, balClosed_self, sub_zero]

/-- C2 witness: the amended theorem applied at principal 1000, rate 12,
term 2. -/
theorem repayment_schedule_spec_witness :
    (0 : ℚ) < 1000 ∧ (0 : ℚ) < 12 ∧ 1 ≤ 2 ∧
    ∃ rows : List ScheduleRow,
      calculate_loan_repayment_schedule 1000 12 2 = some rows ∧
      rows.length = 2 ∧
      List.Pairwise (fun a b => b ≤ a) (rows.map ScheduleRow.remaining_balance) ∧
      (rows.map ScheduleRow.remaining_balance).getLast? = some 0 ∧
      (rows.map ScheduleRow.principal).sum = 1000 :=
  ⟨by norm_num, by norm_num, by norm_num,
    repayment_schedule_spec 1000 12 2 (by norm_num) (by norm_num) (by norm_num)⟩

end KcLoanApp
